import Mathlib

/-!
Verification of the `curse` short-lived certificate issuance service
(TLS issuance path, CA bootstrap, and configuration handling).

The Go sources are shallowly embedded: pure helpers become Lean
functions, the HTTP handler becomes a function from a request value and
the key-tracking-store (KTS) state to a response value and a new KTS
state, and external cryptographic and parsing primitives (SHA-256,
PEM/X.509 codecs, EC key generation, IP syntax checking) are supplied
through an explicit record of oracle functions so that every theorem is
quantified over their behaviour.
-/

namespace Curse

/-- One nanosecond, the unit of Go `time.Duration` values. -/
def nanosecond : Int := 1

/-- Go `time.Second` expressed in nanoseconds. -/
def second : Int := 1000000000

/-- Go `time.Hour` expressed in nanoseconds. -/
def hour : Int := 3600 * second

/-- Lower-case ASCII letter test, the `a-z` range of the source regex. -/
def lowerAZ (c : Char) : Bool := 'a' ≤ c && c ≤ 'z'

/-- Upper-case ASCII letter test; the source regex carries the `(?i)`
case-insensitive flag, which makes each letter range match both cases. -/
def upperAZ (c : Char) : Bool := 'A' ≤ c && c ≤ 'Z'

/-- ASCII digit test, the `0-9` range of the source regex. -/
def digit09 (c : Char) : Bool := '0' ≤ c && c ≤ '9'

/-- Characters allowed in first position by the first alternative
`[a-z_]` of the user regex (case-insensitive). -/
def isUserStartChar (c : Char) : Bool := lowerAZ c || upperAZ c || c = '_'

/-- Characters allowed after the first position by `[a-z0-9_-]`
(case-insensitive). -/
def isUserContChar (c : Char) : Bool :=
  lowerAZ c || upperAZ c || digit09 c || c = '_' || c = '-'

/-- Characters of the hex alternative `[a-f0-9]` (case-insensitive). -/
def isHexChar (c : Char) : Bool :=
  ('a' ≤ c && c ≤ 'f') || ('A' ≤ c && c ≤ 'F') || digit09 c

/-- The compiled user regex of `getConf` (main.go line 231),
`(?i)^([a-z_][a-z0-9_-]{0,31}|[a-f0-9]+)$`, as a matcher on character
lists.  Case folding is modelled on ASCII letters. -/
def userRegexMatchL (cs : List Char) : Bool :=
  (match cs with
   | [] => false
   | c :: rest =>
     isUserStartChar c && decide (rest.length ≤ 31) && rest.all isUserContChar)
  || (!cs.isEmpty && cs.all isHexChar)

/-- The user regex matcher on strings, `conf.userRegex.MatchString`. -/
def userRegexMatch (s : String) : Bool := userRegexMatchL s.data

/-- An ECDSA private key.  The key material is external cryptographic
state; only its identity matters to the embedded control flow. -/
structure ECKey where
  keyId : Nat
deriving Repr, DecidableEq

/-- An X.509 certificate as the embedded code observes it: subject and
issuer common names, subject alternative name, serial number, validity
window (nanoseconds since an arbitrary epoch), CA flag, and its DER
encoding (abstract bytes). -/
structure TlsCert where
  subjectCN : String
  issuerCN : String
  san : String
  serialNumber : Nat
  notBefore : Int
  notAfter : Int
  isCA : Bool
  der : List Nat
deriving Repr, DecidableEq

/-- A parsed certificate signing request (`x509.CertificateRequest`) as
the handler observes it: the subject common name, the embedded public
key, and whether `CheckSignature` succeeds on it (external crypto). -/
structure CSRData where
  subjectCN : String
  pubKey : Nat
  sigOK : Bool
deriving Repr, DecidableEq

/-- The `certOpts` options record passed to the certificate factory
(fields as used in main.go lines 293-301 and 339-347 and described by
the spec's `CertOptions`). -/
structure certOpts where
  CA : Option TlsCert
  CAKey : Option ECKey
  CSR : Option CSRData
  CN : String
  IsCA : Bool
  NotBefore : Int
  NotAfter : Int
  SAN : String
  Serial : Nat
deriving Repr, DecidableEq

/-- The key-tracking store state: the `certserial` counter (absent
before bootstrap) and the `pubkeybirthdays` first-seen records. -/
structure KTS where
  serial : Option Nat
  firstSeen : List (List Nat × Int)
deriving Repr, DecidableEq

/-- Modelled from the spec: `dbIncTLSSerial` is not under src/.  Spec
section 4.1 `nextSerial`: atomically reads the current value, increments,
writes, and returns the new value; initializes to 1 when absent. -/
def dbIncTLSSerial (kts : KTS) : Nat × KTS :=
  match kts.serial with
  | none => (1, { kts with serial := some 1 })
  | some n => (n + 1, { kts with serial := some (n + 1) })

/-- Modelled from the spec: `dbSetTLSSerial` is not under src/.  It
stores the given value as the `certserial` counter (used by
`genTLSCACert` to seed the counter). -/
def dbSetTLSSerial (kts : KTS) (n : Nat) : KTS :=
  { kts with serial := some n }

/-- External cryptographic and parsing primitives used by the embedded
code.  None of them is defined under src/; each theorem quantifies over
an arbitrary `Ext`, and witnesses instantiate it concretely. -/
structure Ext where
  sha256 : List Nat → List Nat
  mkDer : certOpts → Option (List Nat)
  pemEnc : List Nat → List Nat
  pemDecodeStr : String → Option (List Nat)
  pemDecodeBytes : List Nat → Option (List Nat)
  parseCSR : List Nat → Option CSRData
  parseECKey : List Nat → Option ECKey
  parseCert : List Nat → Option TlsCert
  tlsGenKey : String → Option (List Nat × ECKey)
  validIP : String → Bool
  bytesToStr : List Nat → String

/-- Modelled from the spec: `tlsCertFP` is not under src/.  Per the
spec's glossary and section 4.4, the broker fingerprint is SHA-256 over
the DER-encoded certificate. -/
def tlsCertFP (ext : Ext) (c : TlsCert) : List Nat := ext.sha256 c.der

/-- The process configuration (`config` struct of main.go), restricted
to the fields the embedded operations read or write. -/
structure Config where
  brokerFP : List Nat
  RequireClientIP : Bool
  UserHeader : String
  Duration : Int
  MaxKeyAge : Int
  SSLDuration : Int
  dur : Int
  keyLifeSpan : Int
  tlsDur : Int
  SSLCADuration : Int
  SSLKey : String
  SSLCert : String
  SSLCA : String
  SSLCertHostname : String
  SSLKeyCurve : String
  tlsCAKey : Option ECKey
  tlsCACert : Option TlsCert
deriving Repr, DecidableEq

/-- The duration conversions of `main` (main.go lines 61-76):
`conf.dur` is `Duration` seconds with no sign check, `keyLifeSpan` and
`tlsDur` fall back to 100 years when the configured integer is
negative. -/
def setDurations (c : Config) : Config :=
  { c with
    dur := c.Duration * second,
    keyLifeSpan :=
      if c.MaxKeyAge < 0 then 100 * 365 * 24 * hour
      else c.MaxKeyAge * 24 * hour,
    tlsDur :=
      if c.SSLDuration < 0 then 100 * 365 * 24 * hour
      else c.SSLDuration * second }

/-- The viper default for `sslduration` (main.go line 169,
`viper.SetDefault("sslduration", 12*60)`, whose comment reads
`// 12 hour default`). -/
def defaultSSLDuration : Int := 12 * 60

/-- The `tlsParams` form-parameter struct of the TLS handler. -/
structure tlsParams where
  bastionUser : String
  csr : String
  userIP : String
deriving Repr, DecidableEq

/-- An incoming TLS issuance request as the handler observes it:
`r.TLS.PeerCertificates`, the value of the configured user header
(`r.Header.Get(conf.UserHeader)`), the `csr` and `userIP` form values,
and `r.RemoteAddr`. -/
structure Request where
  peerCertificates : List TlsCert
  headerUser : String
  formCSR : String
  formUserIP : String
  remoteAddr : String
deriving Repr, DecidableEq

/-- The observable outcome of one handler run: HTTP status and body,
the KTS state after the request, the certificate issued (if any, the
one whose PEM encoding is the response body), and the success audit log
line (error-path log lines go to a sink the spec places out of scope). -/
structure HandlerOut where
  status : Nat
  body : String
  kts : KTS
  issued : Option TlsCert
  logLine : Option String
deriving Repr, DecidableEq

/-- `validateTLSParams` (part_000 lines 112-131): username presence and
regex shape, CSR presence, and — only when `RequireClientIP` is set —
IP syntax of `userIP`.  Returns the error message, or `none` on
success. -/
def validateTLSParams (ext : Ext) (p : tlsParams) (conf : Config) :
    Option String :=
  if p.bastionUser = "" then some (conf.UserHeader ++ " missing from request")
  else if !userRegexMatch p.bastionUser then some "username is invalid"
  else if p.csr = "" then some "csr missing from request"
  else if conf.RequireClientIP && !ext.validIP p.userIP then
    some "invalid userIP"
  else none

/-- Modelled from the spec: `tlsSignCert` (the certificate factory) is
not under src/.  Spec section 4.3: when `IsCA`, build a self-signed CA
certificate with `CommonName = CN` and `SubjectAltName = SAN`; otherwise
copy the subject common name and public key from the CSR; in both cases
set the serial and validity window from the options and return the PEM
and DER encodings (DER production by the external `mkDer`). -/
def tlsSignCert (ext : Ext) (opts : certOpts) :
    Option (List Nat × TlsCert) :=
  match ext.mkDer opts with
  | none => none
  | some der =>
    if opts.IsCA then
      some (ext.pemEnc der,
        { subjectCN := opts.CN, issuerCN := opts.CN, san := opts.SAN,
          serialNumber := opts.Serial, notBefore := opts.NotBefore,
          notAfter := opts.NotAfter, isCA := true, der := der })
    else
      match opts.CSR with
      | none => none
      | some csr =>
        some (ext.pemEnc der,
          { subjectCN := csr.subjectCN,
            issuerCN := match opts.CA with
                        | some ca => ca.subjectCN
                        | none => "",
            san := "", serialNumber := opts.Serial,
            notBefore := opts.NotBefore, notAfter := opts.NotAfter,
            isCA := false, der := der })

/-- `signTLSClientCert` (main.go lines 327-356): validity window from
`now` and `conf.tlsDur`, next serial from the KTS, then the certificate
factory with the CA material from the config. -/
def signTLSClientCert (ext : Ext) (conf : Config) (now : Int)
    (csr : CSRData) (kts : KTS) : Option (List Nat × TlsCert) × KTS :=
  (tlsSignCert ext
    { CA := conf.tlsCACert, CAKey := conf.tlsCAKey, CSR := some csr,
      CN := "", IsCA := false, NotBefore := now,
      NotAfter := now + conf.tlsDur, SAN := "",
      Serial := (dbIncTLSSerial kts).1 },
   (dbIncTLSSerial kts).2)

/-- The broker authentication prologue of `tlsCertHandler` (part_000
lines 18-31): no peer certificate means 400 `Invalid connection`; a
first peer certificate whose fingerprint differs from `conf.brokerFP`
means 401 `Not authorized`; otherwise (`none`) the handler proceeds. -/
def brokerAuthCheck (ext : Ext) (conf : Config) (r : Request) :
    Option (Nat × String) :=
  match r.peerCertificates with
  | [] => some (400, "Invalid connection")
  | c :: _ =>
    if tlsCertFP ext c = conf.brokerFP then none
    else some (401, "Not authorized")

/-- `tlsCertHandler` (part_000 lines 18-110): broker authentication,
parameter validation, CSR PEM decode, CSR parse, CSR self-signature
check, identity binding, signing, certificate re-parse, and the success
audit log line. -/
def tlsCertHandler (ext : Ext) (conf : Config) (now : Int) (r : Request)
    (kts : KTS) : HandlerOut :=
  match brokerAuthCheck ext conf r with
  | some sb =>
    { status := sb.1, body := sb.2, kts := kts, issued := none,
      logLine := none }
  | none =>
    match validateTLSParams ext
        { bastionUser := r.headerUser, csr := r.formCSR,
          userIP := r.formUserIP } conf with
    | some e =>
      { status := 400, body := "Param validation failure: " ++ e,
        kts := kts, issued := none, logLine := none }
    | none =>
      match ext.pemDecodeStr r.formCSR with
      | none =>
        { status := 400, body := "Failed to decode CSR", kts := kts,
          issued := none, logLine := none }
      | some blockBytes =>
        match ext.parseCSR blockBytes with
        | none =>
          { status := 400, body := "Failed to parse CSR", kts := kts,
            issued := none, logLine := none }
        | some csr =>
          if csr.sigOK = false then
            { status := 400, body := "Failed to check CSR signature",
              kts := kts, issued := none, logLine := none }
          else if csr.subjectCN ≠ r.headerUser then
            { status := 400,
              body := "CSR CommonName field does not match logged-in user, denying request",
              kts := kts, issued := none, logLine := none }
          else
            match (signTLSClientCert ext conf now csr kts).1 with
            | none =>
              { status := 500, body := "Server error",
                kts := (signTLSClientCert ext conf now csr kts).2,
                issued := none, logLine := none }
            | some pc =>
              match ext.parseCert pc.2.der with
              | none =>
                { status := 500, body := "Error generating certificate",
                  kts := (signTLSClientCert ext conf now csr kts).2,
                  issued := none, logLine := none }
              | some c =>
                { status := 200, body := ext.bytesToStr pc.1,
                  kts := (signTLSClientCert ext conf now csr kts).2,
                  issued := some pc.2,
                  logLine := some ("TLS request: " ++
                    ("user[" ++ r.headerUser ++ "] from[" ++
                     r.formUserIP ++ "] serial[" ++
                     toString c.serialNumber ++ "] fingerprint[" ++
                     ext.bytesToStr (tlsCertFP ext c) ++ "]")) }

/-- A file on disk: content bytes and permission mode. -/
structure FileRec where
  content : List Nat
  mode : Nat
deriving Repr, DecidableEq

/-- The filesystem as the CA bootstrap observes it: an association list
from path to file record; a write prepends, a read takes the most
recent entry, `os.Stat` existence is `read.isSome`. -/
structure FS where
  files : List (String × FileRec)
deriving Repr, DecidableEq

/-- Read a file (`ioutil.ReadFile` / `os.Stat`): the most recently
written record at the path, if any. -/
def FS.read (fs : FS) (p : String) : Option FileRec :=
  (fs.files.find? (fun e => e.1 == p)).map (fun e => e.2)

/-- Write a file with the given content and mode (`ioutil.WriteFile`). -/
def FS.write (fs : FS) (p : String) (content : List Nat) (mode : Nat) :
    FS :=
  { files := (p, { content := content, mode := mode }) :: fs.files }

/-- `genTLSCACert` (main.go lines 278-325): generate a CA key on the
configured curve, self-sign a CA certificate with `CN = "curse"`,
`SAN = conf.SSLCertHostname`, serial 1, validity from now to now plus
`SSLCADuration` days, write the key (mode 0600), the cert and the CA
cert copy (mode 0644), and seed the KTS serial counter to 1.  The
generated certificate is also returned so theorems can inspect it. -/
def genTLSCACert (ext : Ext) (conf : Config) (now : Int) (fs : FS)
    (kts : KTS) : Except String (FS × KTS × TlsCert) :=
  match ext.tlsGenKey conf.SSLKeyCurve with
  | none => .error "failed to generate ca private key"
  | some kk =>
    match tlsSignCert ext
      { CA := none, CAKey := some kk.2, CSR := none, CN := "curse",
        IsCA := true, NotBefore := now,
        NotAfter := now + conf.SSLCADuration * 24 * hour,
        SAN := conf.SSLCertHostname, Serial := 1 } with
    | none => .error "failed to generate ca cert"
    | some pc =>
      .ok (((fs.write conf.SSLKey kk.1 0o600).write conf.SSLCert pc.1
              0o644).write conf.SSLCA pc.1 0o644,
           dbSetTLSSerial kts 1, pc.2)

/-- `loadTLSCA` (main.go lines 388-418): read and PEM-decode the key
file, parse the EC private key, read and PEM-decode the cert file,
parse the certificate, and store both parsed forms in the config. -/
def loadTLSCA (ext : Ext) (conf : Config) (fs : FS) :
    Except String Config :=
  match fs.read conf.SSLKey with
  | none => .error "failed to read tls key file"
  | some f =>
    match ext.pemDecodeBytes f.content with
    | none => .error "failed to parse tls key file"
    | some kb =>
      match ext.parseECKey kb with
      | none => .error "failed to parse tls cert file"
      | some key =>
        match fs.read conf.SSLCert with
        | none => .error "failed to read tls cert file"
        | some g =>
          match ext.pemDecodeBytes g.content with
          | none => .error "failed to decode tls cert file"
          | some cb =>
            match ext.parseCert cb with
            | none => .error "failed to parse tls cert file"
            | some cert =>
              .ok { conf with tlsCAKey := some key,
                              tlsCACert := some cert }

/-- The outcome of `initTLSCerts`: the returned `(ok, err)` pair plus
the config, filesystem and KTS after the call. -/
structure InitTLSOut where
  ok : Bool
  warn : Option String
  conf : Config
  fs : FS
  kts : KTS
deriving Repr, DecidableEq

/-- The tail of `initTLSCerts` (main.go lines 374-385): when the
`SSLCA` file does not exist, fall back to the server cert path and
return success with a warning — without loading the CA material;
otherwise run `loadTLSCA` and report its outcome. -/
def initTLSCertsRest (ext : Ext) (conf : Config) (fs : FS) (kts : KTS) :
    InitTLSOut :=
  if (fs.read conf.SSLCA).isNone then
    { ok := true,
      warn := some ("discrete ca cert not supported with automatic cert generation. Using sslcert file as ca cert: " ++ conf.SSLCert),
      conf := { conf with SSLCA := conf.SSLCert }, fs := fs, kts := kts }
  else
    match loadTLSCA ext conf fs with
    | .error e =>
      { ok := false, warn := some e, conf := conf, fs := fs, kts := kts }
    | .ok conf2 =>
      { ok := true, warn := none, conf := conf2, fs := fs, kts := kts }

/-- `initTLSCerts` (main.go lines 358-386): generate the CA material
when neither the key file nor the cert file exists, refuse to start
when the cert exists without the key, then reconcile the `SSLCA` path
and load the CA material. -/
def initTLSCerts (ext : Ext) (conf : Config) (now : Int) (fs : FS)
    (kts : KTS) : InitTLSOut :=
  let missK := (fs.read conf.SSLKey).isNone
  let missC := (fs.read conf.SSLCert).isNone
  if missK && missC then
    match genTLSCACert ext conf now fs kts with
    | .error e =>
      { ok := false, warn := some e, conf := conf, fs := fs, kts := kts }
    | .ok g => initTLSCertsRest ext conf g.1 g.2.1
  else if missK && !missC then
    { ok := false,
      warn := some "error initializing ca certificate: sslcert exists, but sslkey does not",
      conf := conf, fs := fs, kts := kts }
  else initTLSCertsRest ext conf fs kts

/-- A concrete certificate playing the role of the broker's client
certificate in witnesses; with the identity digest of `extFix`, its
fingerprint is its DER bytes `[9]`. -/
def brokerCert : TlsCert :=
  { subjectCN := "broker", issuerCN := "ca", san := "", serialNumber := 2,
    notBefore := 0, notAfter := 0, isCA := false, der := [9] }

/-- A concrete peer certificate whose fingerprint `[3]` differs from the
pinned broker fingerprint `[9]`. -/
def strangerCert : TlsCert :=
  { subjectCN := "stranger", issuerCN := "ca", san := "",
    serialNumber := 3, notBefore := 0, notAfter := 0, isCA := false,
    der := [3] }

/-- A concrete instantiation of the external primitives for witnesses:
the digest is the identity on bytes, parsing always succeeds with fixed
results, and the CSR parser yields `CN = alice` with a valid
self-signature. -/
def extFix : Ext :=
  { sha256 := fun b => b,
    mkDer := fun _ => some [1],
    pemEnc := fun b => b,
    pemDecodeStr := fun s => if s = "" then none else some [2],
    pemDecodeBytes := fun b => some b,
    parseCSR := fun _ => some { subjectCN := "alice", pubKey := 0, sigOK := true },
    parseECKey := fun _ => some { keyId := 5 },
    parseCert := fun b =>
      some { subjectCN := "signed", issuerCN := "curse", san := "",
             serialNumber := 42, notBefore := 0, notAfter := 0,
             isCA := false, der := b },
    tlsGenKey := fun _ => some ([7, 7], { keyId := 1 }),
    validIP := fun s => s = "10.0.0.5",
    bytesToStr := fun _ => "bytes" }

/-- A concrete configuration for witnesses: broker fingerprint `[9]`,
client IP not required, CA material loaded. -/
def confFix : Config :=
  { brokerFP := [9], RequireClientIP := false,
    UserHeader := "REMOTE_USER", Duration := 120, MaxKeyAge := 90,
    SSLDuration := 720, dur := 120 * second, keyLifeSpan := 90 * 24 * hour,
    tlsDur := 720 * second, SSLCADuration := 730,
    SSLKey := "/opt/curse/etc/cursed.key",
    SSLCert := "/opt/curse/etc/cursed.crt",
    SSLCA := "/opt/curse/etc/cursed.crt",
    SSLCertHostname := "localhost", SSLKeyCurve := "p384",
    tlsCAKey := some { keyId := 5 },
    tlsCACert := some
      { subjectCN := "curse", issuerCN := "curse", san := "localhost",
        serialNumber := 1, notBefore := 0, notAfter := 1, isCA := true,
        der := [4] } }

/-- A concrete KTS state for witnesses. -/
def ktsFix : KTS := { serial := some 41, firstSeen := [([1], 5)] }

/-- A well-formed request from the broker for user `alice`. -/
def reqFix : Request :=
  { peerCertificates := [brokerCert], headerUser := "alice",
    formCSR := "csr-pem", formUserIP := "10.0.0.5",
    remoteAddr := "127.0.0.1" }

/-- The same request presented with a non-broker peer certificate. -/
def reqStranger : Request :=
  { peerCertificates := [strangerCert], headerUser := "alice",
    formCSR := "csr-pem", formUserIP := "10.0.0.5",
    remoteAddr := "127.0.0.1" }

/-- The same request presented with two peer certificates, both carrying
the pinned broker fingerprint. -/
def reqTwoCerts : Request :=
  { peerCertificates := [brokerCert, brokerCert], headerUser := "alice",
    formCSR := "csr-pem", formUserIP := "10.0.0.5",
    remoteAddr := "127.0.0.1" }

/-- The broker request presented on behalf of header user `bob`, while
`extFix.parseCSR` yields a CSR with `CN = alice`. -/
def reqBob : Request :=
  { peerCertificates := [brokerCert], headerUser := "bob",
    formCSR := "csr-pem", formUserIP := "10.0.0.5",
    remoteAddr := "127.0.0.1" }

/-- External primitives identical to `extFix` except that the parsed
CSR fails its self-signature check. -/
def extBadSig : Ext :=
  { extFix with
    parseCSR := fun _ =>
      some { subjectCN := "alice", pubKey := 0, sigOK := false } }

/-- Shape of a successfully signed client certificate: subject common
name copied from the CSR, validity window `now .. now + conf.tlsDur`,
serial from the KTS counter, not a CA certificate. -/
theorem signTLSClientCert_shape (ext : Ext) (conf : Config) (now : Int)
    (csr : CSRData) (kts : KTS) (pc : List Nat × TlsCert)
    (h : (signTLSClientCert ext conf now csr kts).1 = some pc) :
    pc.2.subjectCN = csr.subjectCN ∧ pc.2.notBefore = now ∧
    pc.2.notAfter = now + conf.tlsDur ∧
    pc.2.serialNumber = (dbIncTLSSerial kts).1 ∧ pc.2.isCA = false := by
  unfold signTLSClientCert tlsSignCert at h
  split at h
  · exact absurd h (by simp)
  · rw [if_neg (by simp)] at h
    simp only [Option.some.injEq] at h
    subst h
    simp

/-- The KTS state after `signTLSClientCert` is the incremented one. -/
theorem signTLSClientCert_kts (ext : Ext) (conf : Config) (now : Int)
    (csr : CSRData) (kts : KTS) :
    (signTLSClientCert ext conf now csr kts).2 = (dbIncTLSSerial kts).2 :=
  rfl

/-- The broker authentication prologue only ever blocks with status 400
or 401. -/
theorem brokerAuthCheck_blocked_status (ext : Ext) (conf : Config)
    (r : Request) (sb : Nat × String)
    (h : brokerAuthCheck ext conf r = some sb) :
    sb.1 = 400 ∨ sb.1 = 401 := by
  unfold brokerAuthCheck at h
  split at h
  · cases h; left; rfl
  · split at h
    · exact absurd h (by simp)
    · cases h; right; rfl

/-- Inversion of a 200 handler outcome: every check passed, a client
certificate was produced by `signTLSClientCert` for a CSR whose common
name equals the header user, the certificate is the issued one, the KTS
advanced by the signing step, and the audit line has the recorded
format. -/
theorem tlsCertHandler_success_inv (ext : Ext) (conf : Config)
    (now : Int) (r : Request) (kts : KTS)
    (h : (tlsCertHandler ext conf now r kts).status = 200) :
    ∃ bb csr pc c,
      brokerAuthCheck ext conf r = none ∧
      validateTLSParams ext
        { bastionUser := r.headerUser, csr := r.formCSR,
          userIP := r.formUserIP } conf = none ∧
      ext.pemDecodeStr r.formCSR = some bb ∧
      ext.parseCSR bb = some csr ∧ csr.sigOK = true ∧
      csr.subjectCN = r.headerUser ∧
      (signTLSClientCert ext conf now csr kts).1 = some pc ∧
      ext.parseCert pc.2.der = some c ∧
      tlsCertHandler ext conf now r kts =
        { status := 200, body := ext.bytesToStr pc.1,
          kts := (signTLSClientCert ext conf now csr kts).2,
          issued := some pc.2,
          logLine := some ("TLS request: " ++
            ("user[" ++ r.headerUser ++ "] from[" ++ r.formUserIP ++
             "] serial[" ++ toString c.serialNumber ++
             "] fingerprint[" ++
             ext.bytesToStr (tlsCertFP ext c) ++ "]")) } := by
  revert h
  unfold tlsCertHandler
  split
  next sb heq =>
    intro h
    simp only at h
    rcases brokerAuthCheck_blocked_status ext conf r sb heq with h4 | h4 <;>
      omega
  next heq =>
  split
  next e heq2 => intro h; simp at h
  next heq2 =>
  split
  next heq3 => intro h; simp at h
  next bb heq3 =>
  split
  next heq4 => intro h; simp at h
  next csr heq4 =>
  split
  next h5 => intro h; simp at h
  next h5 =>
  split
  next h6 => intro h; simp at h
  next h6 =>
  split
  next heq7 => intro h; simp at h
  next pc heq7 =>
  split
  next heq8 => intro h; simp at h
  next c heq8 =>
  intro _
  refine ⟨bb, csr, pc, c, heq, heq2, heq3, heq4, ?_, ?_, heq7, heq8, rfl⟩
  · cases hs : csr.sigOK with
    | false => exact absurd hs h5
    | true => rfl
  · exact not_ne_iff.mp h6

/-- C1 counterexample: the claim requires exactly one presented client
certificate for authentication to pass, but on a request presenting two
certificates (both carrying the pinned fingerprint) the handler
proceeds past authentication — the code only inspects
`PeerCertificates[0]` — and even issues a certificate. -/
theorem c1_brokerAuth_counterexample :
    brokerAuthCheck extFix confFix reqTwoCerts = none ∧
    reqTwoCerts.peerCertificates.length = 2 ∧
    (reqTwoCerts.peerCertificates.filter
      (fun c => decide (tlsCertFP extFix c = confFix.brokerFP))).length = 2 ∧
    (tlsCertHandler extFix confFix 0 reqTwoCerts ktsFix).status = 200 := by
  decide

/-- C1 (amended): the handler proceeds past authentication iff at least
one peer certificate is present and the fingerprint of the first one
equals `conf.brokerFP`; if the first peer certificate's fingerprint
differs it responds 401 with body `Not authorized`, and if no peer
certificate is present it responds 400 (body `Invalid connection`). -/
theorem c1_brokerAuth_amended (ext : Ext) (conf : Config) (now : Int)
    (r : Request) (kts : KTS) :
    (brokerAuthCheck ext conf r = none ↔
      ∃ c rest, r.peerCertificates = c :: rest ∧
        tlsCertFP ext c = conf.brokerFP)
    ∧ (∀ c rest, r.peerCertificates = c :: rest →
        tlsCertFP ext c ≠ conf.brokerFP →
        (tlsCertHandler ext conf now r kts).status = 401 ∧
        (tlsCertHandler ext conf now r kts).body = "Not authorized")
    ∧ (r.peerCertificates = [] →
        (tlsCertHandler ext conf now r kts).status = 400 ∧
        (tlsCertHandler ext conf now r kts).body = "Invalid connection") := by
  refine ⟨?_, ?_, ?_⟩
  · cases hp : r.peerCertificates with
    | nil => simp [brokerAuthCheck, hp]
    | cons c cs =>
      by_cases hfp : tlsCertFP ext c = conf.brokerFP <;>
        simp [brokerAuthCheck, hp, hfp]
  · intro c rest h1 h2
    unfold tlsCertHandler brokerAuthCheck
    rw [h1]
    simp [h2]
  · intro h1
    unfold tlsCertHandler brokerAuthCheck
    rw [h1]
    simp

/-- C1 witness: on a request whose single peer certificate has a wrong
fingerprint the handler answers 401 `Not authorized`. -/
theorem c1_brokerAuth_witness :
    reqStranger.peerCertificates = strangerCert :: [] ∧
    tlsCertFP extFix strangerCert ≠ confFix.brokerFP ∧
    (tlsCertHandler extFix confFix 0 reqStranger ktsFix).status = 401 ∧
    (tlsCertHandler extFix confFix 0 reqStranger ktsFix).body =
      "Not authorized" :=
  ⟨rfl, by decide,
   ((c1_brokerAuth_amended extFix confFix 0 reqStranger ktsFix).2.1
     strangerCert [] rfl (by decide)).1,
   ((c1_brokerAuth_amended extFix confFix 0 reqStranger ktsFix).2.1
     strangerCert [] rfl (by decide)).2⟩

/-- C3: a request whose first peer-certificate fingerprint differs from
`conf.brokerFP` is answered 401 before any key-tracking-store
operation, so the KTS state after the request equals the state before
it. -/
theorem c3_wrong_broker_kts_frame (ext : Ext) (conf : Config)
    (now : Int) (r : Request) (kts : KTS) (c : TlsCert)
    (rest : List TlsCert) (h1 : r.peerCertificates = c :: rest)
    (h2 : tlsCertFP ext c ≠ conf.brokerFP) :
    (tlsCertHandler ext conf now r kts).kts = kts ∧
    (tlsCertHandler ext conf now r kts).status = 401 := by
  unfold tlsCertHandler brokerAuthCheck
  rw [h1]
  simp [h2]

/-- C3 witness: concrete wrong-broker request, the KTS is returned
unchanged. -/
theorem c3_wrong_broker_kts_frame_witness :
    reqStranger.peerCertificates = strangerCert :: [] ∧
    tlsCertFP extFix strangerCert ≠ confFix.brokerFP ∧
    (tlsCertHandler extFix confFix 0 reqStranger ktsFix).kts = ktsFix :=
  ⟨rfl, by decide,
   (c3_wrong_broker_kts_frame extFix confFix 0 reqStranger ktsFix
     strangerCert [] rfl (by decide)).1⟩

/-- C9 counterexample: the claim says every 33-character username is
rejected, but a 33-character all-hex string matches the second regex
alternative `[a-f0-9]+` and is accepted. -/
theorem c9_userRegex_counterexample :
    (String.mk (List.replicate 33 'a')).length = 33 ∧
    userRegexMatch (String.mk (List.replicate 33 'a')) = true := by
  decide

/-- C9 (amended): a 32-character username starting with a letter or
underscore and continuing in `[a-z0-9_-]` is accepted; a 33-character
username is rejected unless it is hex-only; a hex-only username of any
length at least 1 is accepted. -/
theorem c9_userRegex_amended :
    (∀ (c : Char) (cs : List Char), (c :: cs).length = 32 →
      isUserStartChar c = true → cs.all isUserContChar = true →
      userRegexMatch (String.mk (c :: cs)) = true)
    ∧ (∀ cs : List Char, cs.length = 33 → cs.all isHexChar = false →
        userRegexMatch (String.mk cs) = false)
    ∧ (∀ cs : List Char, cs ≠ [] → cs.all isHexChar = true →
        userRegexMatch (String.mk cs) = true) := by
  refine ⟨?_, ?_, ?_⟩
  · intro c cs hlen hstart hcont
    have h31 : cs.length = 31 := by simpa using hlen
    simp [userRegexMatch, userRegexMatchL, hstart, hcont, h31]
  · intro cs hlen hhex
    cases cs with
    | nil => simp at hlen
    | cons c rest =>
      have h32 : rest.length = 32 := by simpa using hlen
      simp [userRegexMatch, userRegexMatchL, hhex, h32]
  · intro cs hne hhex
    cases cs with
    | nil => exact absurd rfl hne
    | cons c rest => simp [userRegexMatch, userRegexMatchL, hhex]

/-- C9 witness: a 32-character username (letter then 31 characters of
the continuation class) is accepted. -/
theorem c9_userRegex_witness :
    ('a' :: List.replicate 31 'b').length = 32 ∧
    isUserStartChar 'a' = true ∧
    (List.replicate 31 'b').all isUserContChar = true ∧
    userRegexMatch (String.mk ('a' :: List.replicate 31 'b')) = true :=
  ⟨by decide, by decide, by decide,
   c9_userRegex_amended.1 'a' (List.replicate 31 'b') (by decide)
     (by decide) (by decide)⟩

/-- Reading a path just written returns the written record. -/
theorem FS.read_write_self (fs : FS) (p : String) (content : List Nat)
    (mode : Nat) :
    (fs.write p content mode).read p =
      some { content := content, mode := mode } := by
  simp [FS.read, FS.write, List.find?]

/-- Reading a different path is unaffected by a write. -/
theorem FS.read_write_other (fs : FS) (p q : String)
    (content : List Nat) (mode : Nat) (h : q ≠ p) :
    (fs.write p content mode).read q = fs.read q := by
  simp [FS.read, FS.write, List.find?, beq_eq_false_iff_ne.mpr (Ne.symm h)]

/-- C2: every 200 outcome carries an issued certificate whose subject
common name equals the request's header user (the `bastionUser`); and
when the parsed CSR's common name differs from the header user the
handler answers 400, issues nothing, and leaves the KTS unchanged. -/
theorem c2_cn_binding (ext : Ext) (conf : Config) (now : Int)
    (r : Request) (kts : KTS) :
    ((tlsCertHandler ext conf now r kts).status = 200 →
      ∃ cert, (tlsCertHandler ext conf now r kts).issued = some cert ∧
        cert.subjectCN = r.headerUser)
    ∧ (∀ bb csr, brokerAuthCheck ext conf r = none →
        validateTLSParams ext
          { bastionUser := r.headerUser, csr := r.formCSR,
            userIP := r.formUserIP } conf = none →
        ext.pemDecodeStr r.formCSR = some bb →
        ext.parseCSR bb = some csr → csr.sigOK = true →
        csr.subjectCN ≠ r.headerUser →
        (tlsCertHandler ext conf now r kts).status = 400 ∧
        (tlsCertHandler ext conf now r kts).issued = none ∧
        (tlsCertHandler ext conf now r kts).kts = kts) := by
  constructor
  · intro h
    obtain ⟨bb, csr, pc, c, h1, h2, h3, h4, h5, h6, h7, h8, heq⟩ :=
      tlsCertHandler_success_inv ext conf now r kts h
    refine ⟨pc.2, ?_, ?_⟩
    · rw [heq]
    · rw [(signTLSClientCert_shape ext conf now csr kts pc h7).1, h6]
  · intro bb csr h1 h2 h3 h4 h5 h6
    unfold tlsCertHandler
    rw [h1, h2, h3]
    simp [h4, h5, h6]

/-- C2 witness: header user `bob` with a CSR naming `alice` is denied
with 400 and nothing is issued. -/
theorem c2_cn_binding_witness :
    brokerAuthCheck extFix confFix reqBob = none ∧
    (extFix.parseCSR [2]).map (fun c => c.subjectCN) = some "alice" ∧
    reqBob.headerUser = "bob" ∧
    (tlsCertHandler extFix confFix 0 reqBob ktsFix).status = 400 ∧
    (tlsCertHandler extFix confFix 0 reqBob ktsFix).issued = none ∧
    (tlsCertHandler extFix confFix 0 reqBob ktsFix).kts = ktsFix :=
  ⟨by decide, by decide, rfl,
   ((c2_cn_binding extFix confFix 0 reqBob ktsFix).2 [2]
     { subjectCN := "alice", pubKey := 0, sigOK := true }
     (by decide) (by decide) (by decide) (by decide) rfl (by decide)).1,
   ((c2_cn_binding extFix confFix 0 reqBob ktsFix).2 [2]
     { subjectCN := "alice", pubKey := 0, sigOK := true }
     (by decide) (by decide) (by decide) (by decide) rfl (by decide)).2.1,
   ((c2_cn_binding extFix confFix 0 reqBob ktsFix).2 [2]
     { subjectCN := "alice", pubKey := 0, sigOK := true }
     (by decide) (by decide) (by decide) (by decide) rfl (by decide)).2.2⟩

/-- C4: when the parsed CSR fails its self-signature check the handler
answers 400 with the signature diagnostic, no certificate is issued,
and the KTS is unchanged (so `signTLSClientCert` was never invoked). -/
theorem c4_bad_csr_signature (ext : Ext) (conf : Config) (now : Int)
    (r : Request) (kts : KTS) (bb : List Nat) (csr : CSRData)
    (h1 : brokerAuthCheck ext conf r = none)
    (h2 : validateTLSParams ext
      { bastionUser := r.headerUser, csr := r.formCSR,
        userIP := r.formUserIP } conf = none)
    (h3 : ext.pemDecodeStr r.formCSR = some bb)
    (h4 : ext.parseCSR bb = some csr)
    (h5 : csr.sigOK = false) :
    (tlsCertHandler ext conf now r kts).status = 400 ∧
    (tlsCertHandler ext conf now r kts).issued = none ∧
    (tlsCertHandler ext conf now r kts).kts = kts ∧
    (tlsCertHandler ext conf now r kts).body =
      "Failed to check CSR signature" := by
  unfold tlsCertHandler
  rw [h1, h2, h3]
  simp [h4, h5]

/-- C4 witness: a concrete request whose CSR self-signature check fails
is answered 400 and the KTS is unchanged. -/
theorem c4_bad_csr_signature_witness :
    brokerAuthCheck extBadSig confFix reqFix = none ∧
    (extBadSig.parseCSR [2]).map (fun c => c.sigOK) = some false ∧
    (tlsCertHandler extBadSig confFix 0 reqFix ktsFix).status = 400 ∧
    (tlsCertHandler extBadSig confFix 0 reqFix ktsFix).issued = none ∧
    (tlsCertHandler extBadSig confFix 0 reqFix ktsFix).kts = ktsFix :=
  ⟨by decide, by decide,
   (c4_bad_csr_signature extBadSig confFix 0 reqFix ktsFix [2]
     { subjectCN := "alice", pubKey := 0, sigOK := false }
     (by decide) (by decide) (by decide) (by decide) rfl).1,
   (c4_bad_csr_signature extBadSig confFix 0 reqFix ktsFix [2]
     { subjectCN := "alice", pubKey := 0, sigOK := false }
     (by decide) (by decide) (by decide) (by decide) rfl).2.1,
   (c4_bad_csr_signature extBadSig confFix 0 reqFix ktsFix [2]
     { subjectCN := "alice", pubKey := 0, sigOK := false }
     (by decide) (by decide) (by decide) (by decide) rfl).2.2.1⟩

/-- C10: when `RequireClientIP` is false, `validateTLSParams` does not
depend on the `userIP` field at all; and on every successful issuance
the audit log line embeds the request's `userIP` form value verbatim. -/
theorem c10_userIP_no_check :
    (∀ (ext : Ext) (conf : Config) (p : tlsParams) (ip : String),
      conf.RequireClientIP = false →
      validateTLSParams ext
        { bastionUser := p.bastionUser, csr := p.csr, userIP := ip }
        conf = validateTLSParams ext p conf)
    ∧ (∀ (ext : Ext) (conf : Config) (now : Int) (r : Request)
        (kts : KTS), (tlsCertHandler ext conf now r kts).status = 200 →
        ∃ s f, (tlsCertHandler ext conf now r kts).logLine =
          some ("TLS request: " ++
            ("user[" ++ r.headerUser ++ "] from[" ++ r.formUserIP ++
             "] serial[" ++ s ++ "] fingerprint[" ++ f ++ "]"))) := by
  constructor
  · intro ext conf p ip hreq
    unfold validateTLSParams
    simp [hreq]
  · intro ext conf now r kts h
    obtain ⟨bb, csr, pc, c, h1, h2, h3, h4, h5, h6, h7, h8, heq⟩ :=
      tlsCertHandler_success_inv ext conf now r kts h
    exact ⟨toString c.serialNumber, ext.bytesToStr (tlsCertFP ext c),
      by rw [heq]⟩

/-- C10 witness: with `RequireClientIP = false`, an empty and a non-IP
`userIP` validate exactly like a well-formed one, and a successful run
logs the submitted `userIP` verbatim. -/
theorem c10_userIP_no_check_witness :
    confFix.RequireClientIP = false ∧
    validateTLSParams extFix
      { bastionUser := "alice", csr := "csr-pem", userIP := "" } confFix =
      validateTLSParams extFix
        { bastionUser := "alice", csr := "csr-pem",
          userIP := "10.0.0.5" } confFix ∧
    (tlsCertHandler extFix confFix 0 reqFix ktsFix).status = 200 ∧
    (∃ s f, (tlsCertHandler extFix confFix 0 reqFix ktsFix).logLine =
      some ("TLS request: " ++
        ("user[" ++ reqFix.headerUser ++ "] from[" ++ reqFix.formUserIP ++
         "] serial[" ++ s ++ "] fingerprint[" ++ f ++ "]"))) :=
  ⟨rfl,
   c10_userIP_no_check.1 extFix confFix
     { bastionUser := "alice", csr := "csr-pem", userIP := "10.0.0.5" }
     "" rfl,
   by decide,
   c10_userIP_no_check.2 extFix confFix 0 reqFix ktsFix (by decide)⟩

/-- The fixture configuration with both validity options negative. -/
def confNeg : Config := { confFix with Duration := -1, SSLDuration := -1 }

/-- C7 counterexample: with `duration = -1`, the effective SSH validity
window `conf.dur` is minus one second — main.go line 62 applies no
negative-value fallback to `Duration` — not the 100 years the claim
states for every negative configured validity value. -/
theorem c7_negative_duration_counterexample :
    (setDurations { confFix with Duration := -1 }).dur ≠
      100 * 365 * 24 * hour ∧
    (setDurations { confFix with Duration := -1 }).dur = -1 * second := by
  decide

/-- C7 (amended): a negative `sslduration` yields a TLS validity window
of 100 years (and every certificate signed under such a config has that
window), but a negative `duration` is used as-is: `conf.dur` is the
configured number of seconds and is negative. -/
theorem c7_negative_duration_amended (c : Config)
    (h1 : c.SSLDuration < 0) (h2 : c.Duration < 0) :
    (setDurations c).tlsDur = 100 * 365 * 24 * hour ∧
    (setDurations c).dur = c.Duration * second ∧
    (setDurations c).dur < 0 ∧
    (∀ (ext : Ext) (now : Int) (csr : CSRData) (kts : KTS)
      (pc : List Nat × TlsCert),
      (signTLSClientCert ext (setDurations c) now csr kts).1 = some pc →
      pc.2.notAfter - pc.2.notBefore = 100 * 365 * 24 * hour) := by
  have htls : (setDurations c).tlsDur = 100 * 365 * 24 * hour := by
    simp [setDurations, h1]
  refine ⟨htls, by simp [setDurations], ?_, ?_⟩
  · have hpos : (0 : Int) < second := by norm_num [second]
    simpa [setDurations] using mul_neg_of_neg_of_pos h2 hpos
  · intro ext now csr kts pc h
    have hs := signTLSClientCert_shape ext (setDurations c) now csr kts pc h
    rw [hs.2.2.1, hs.2.1, htls]
    omega

/-- C7 witness: concrete negative config values. -/
theorem c7_negative_duration_witness :
    confNeg.SSLDuration < 0 ∧ confNeg.Duration < 0 ∧
    (setDurations confNeg).tlsDur = 100 * 365 * 24 * hour ∧
    (setDurations confNeg).dur = confNeg.Duration * second :=
  ⟨by decide, by decide,
   (c7_negative_duration_amended confNeg (by decide) (by decide)).1,
   (c7_negative_duration_amended confNeg (by decide) (by decide)).2.1⟩

/-- The fixture configuration carrying the viper default `sslduration`. -/
def confDefault : Config :=
  { confFix with SSLDuration := defaultSSLDuration }

/-- C8: the viper default for `sslduration` is `12*60 = 720` seconds
(12 minutes), although the source comment beside it says `12 hour` —
so a certificate issued under the default configuration has a validity
window of 720 seconds, not the 43200 seconds (12 hours) the claim
states. -/
theorem c8_default_sslduration_eval :
    defaultSSLDuration = 720 ∧
    (setDurations confDefault).tlsDur = 720 * second ∧
    (720 : Int) * second ≠ 43200 * second ∧
    ((tlsCertHandler extFix (setDurations confDefault) 0 reqFix
        ktsFix).issued.map (fun c => c.notAfter - c.notBefore)) =
      some (720 * second) := by
  decide

/-- The configuration of the fallback scenario: key and cert files
exist, the discrete `SSLCA` file does not, no CA material loaded yet. -/
def conf5 : Config :=
  { confFix with
    SSLCA := "/opt/curse/etc/cursed-ca.crt",
    tlsCAKey := none,
    tlsCACert := none }

/-- A filesystem holding only the server key and cert files. -/
def fs5 : FS :=
  { files :=
    [("/opt/curse/etc/cursed.key", { content := [1], mode := 0o600 }),
     ("/opt/curse/etc/cursed.crt", { content := [2], mode := 0o644 })] }

/-- C5: in the fallback case (key and cert present, `SSLCA` absent)
`initTLSCerts` reports success and rewrites `conf.SSLCA`, but returns
before `loadTLSCA` runs, so `conf.tlsCAKey` and `conf.tlsCACert` are
still unset — contradicting the claim that success implies the parsed
CA material is held in memory. -/
theorem c5_fallback_no_ca_loaded_eval :
    (fs5.read conf5.SSLKey).isSome = true ∧
    (fs5.read conf5.SSLCert).isSome = true ∧
    (fs5.read conf5.SSLCA).isNone = true ∧
    (initTLSCerts extFix conf5 0 fs5 ktsFix).ok = true ∧
    (initTLSCerts extFix conf5 0 fs5 ktsFix).warn.isSome = true ∧
    (initTLSCerts extFix conf5 0 fs5 ktsFix).conf.SSLCA = conf5.SSLCert ∧
    (initTLSCerts extFix conf5 0 fs5 ktsFix).conf.tlsCAKey = none ∧
    (initTLSCerts extFix conf5 0 fs5 ktsFix).conf.tlsCACert = none := by
  decide

/-- The tail of `initTLSCerts` never touches the filesystem or the
KTS. -/
theorem initTLSCertsRest_frame (ext : Ext) (conf : Config) (fs : FS)
    (kts : KTS) :
    (initTLSCertsRest ext conf fs kts).fs = fs ∧
    (initTLSCertsRest ext conf fs kts).kts = kts := by
  unfold initTLSCertsRest
  split
  · exact ⟨rfl, rfl⟩
  · split <;> exact ⟨rfl, rfl⟩

/-- C6: `initTLSCerts` generates CA material iff neither the key file
nor the cert file exists (otherwise filesystem and KTS are untouched);
when it generates and key generation and signing succeed, the key file
is written with mode 0600 and the cert file (and CA cert copy) with
mode 0644, the generated certificate is self-signed with common name
`curse`, SAN the configured hostname, serial 1 and validity from `now`
to `now` plus `SSLCADuration` days, and the KTS serial counter is set
to 1. -/
theorem c6_bootstrap (ext : Ext) (conf : Config) (now : Int) (fs : FS)
    (kts : KTS) :
    (((fs.read conf.SSLKey).isNone && (fs.read conf.SSLCert).isNone)
        = false →
      (initTLSCerts ext conf now fs kts).fs = fs ∧
      (initTLSCerts ext conf now fs kts).kts = kts)
    ∧ (∀ kb key fs1 kts1 cert,
        (fs.read conf.SSLKey).isNone = true →
        (fs.read conf.SSLCert).isNone = true →
        conf.SSLCA ≠ conf.SSLKey → conf.SSLCert ≠ conf.SSLKey →
        ext.tlsGenKey conf.SSLKeyCurve = some (kb, key) →
        genTLSCACert ext conf now fs kts = .ok (fs1, kts1, cert) →
        (initTLSCerts ext conf now fs kts).fs = fs1 ∧
        (initTLSCerts ext conf now fs kts).kts = kts1 ∧
        fs1.read conf.SSLKey =
          some { content := kb, mode := 0o600 } ∧
        fs1.read conf.SSLCert =
          some { content := ext.pemEnc cert.der, mode := 0o644 } ∧
        fs1.read conf.SSLCA =
          some { content := ext.pemEnc cert.der, mode := 0o644 } ∧
        cert.subjectCN = "curse" ∧ cert.issuerCN = "curse" ∧
        cert.isCA = true ∧ cert.san = conf.SSLCertHostname ∧
        cert.serialNumber = 1 ∧ cert.notBefore = now ∧
        cert.notAfter = now + conf.SSLCADuration * 24 * hour ∧
        kts1.serial = some 1) := by
  constructor
  · intro h
    unfold initTLSCerts
    simp only [h, Bool.false_eq_true, if_false]
    split
    · exact ⟨rfl, rfl⟩
    · exact initTLSCertsRest_frame ext conf fs kts
  · intro kb key fs1 kts1 cert hK hC hCA hCert hkey hgenok
    have hcomp := hgenok
    unfold genTLSCACert tlsSignCert at hcomp
    simp only [hkey] at hcomp
    cases hm : ext.mkDer
        { CA := none, CAKey := some key, CSR := none, CN := "curse",
          IsCA := true, NotBefore := now,
          NotAfter := now + conf.SSLCADuration * 24 * hour,
          SAN := conf.SSLCertHostname, Serial := 1 } with
    | none =>
      rw [hm] at hcomp
      exact absurd hcomp (by simp)
    | some der =>
      simp only [hm, if_true, Except.ok.injEq, Prod.mk.injEq] at hcomp
      obtain ⟨h_fs, h_kts, h_cert⟩ := hcomp
      have hrun : initTLSCerts ext conf now fs kts =
          initTLSCertsRest ext conf fs1 kts1 := by
        unfold initTLSCerts
        simp only [hK, hC, Bool.and_self, if_true, hgenok]
      refine ⟨?_, ?_, ?_, ?_, ?_, ?_, ?_, ?_, ?_, ?_, ?_, ?_, ?_⟩
      · rw [hrun]
        exact (initTLSCertsRest_frame ext conf _ _).1
      · rw [hrun]
        exact (initTLSCertsRest_frame ext conf _ _).2
      · rw [← h_fs,
            FS.read_write_other _ _ _ _ _ (Ne.symm hCA),
            FS.read_write_other _ _ _ _ _ (Ne.symm hCert)]
        exact FS.read_write_self _ _ _ _
      · rw [← h_fs, ← h_cert]
        by_cases hca : conf.SSLCA = conf.SSLCert
        · rw [hca]
          exact FS.read_write_self _ _ _ _
        · rw [FS.read_write_other _ _ _ _ _ (Ne.symm hca)]
          exact FS.read_write_self _ _ _ _
      · rw [← h_fs, ← h_cert]
        exact FS.read_write_self _ _ _ _
      · rw [← h_cert]
      · rw [← h_cert]
      · rw [← h_cert]
      · rw [← h_cert]
      · rw [← h_cert]
      · rw [← h_cert]
      · rw [← h_cert]
      · rw [← h_kts]
        rfl

/-- A first-start configuration with distinct key, cert and CA paths. -/
def conf6 : Config :=
  { confFix with
    SSLKey := "/k",
    SSLCert := "/c",
    SSLCA := "/ca" }

/-- An empty filesystem: the first-start state. -/
def fsEmpty : FS := { files := [] }

/-- The filesystem produced by bootstrap on `fsEmpty` under `conf6`. -/
def fs6 : FS :=
  { files :=
    [("/ca", { content := [1], mode := 0o644 }),
     ("/c", { content := [1], mode := 0o644 }),
     ("/k", { content := [7, 7], mode := 0o600 })] }

/-- The KTS state after bootstrap seeds the serial counter. -/
def kts6 : KTS := { serial := some 1, firstSeen := [([1], 5)] }

/-- The CA certificate generated by bootstrap under `conf6` at time 5. -/
def cert6 : TlsCert :=
  { subjectCN := "curse", issuerCN := "curse", san := "localhost",
    serialNumber := 1, notBefore := 5,
    notAfter := 5 + 730 * 24 * hour, isCA := true, der := [1] }

/-- C6 witness: a concrete first start writes the key with mode 0600
and the certs with mode 0644, produces the self-signed `curse` CA
certificate with serial 1, and seeds the KTS serial counter. -/
theorem c6_bootstrap_witness :
    (fsEmpty.read conf6.SSLKey).isNone = true ∧
    (fsEmpty.read conf6.SSLCert).isNone = true ∧
    conf6.SSLCA ≠ conf6.SSLKey ∧ conf6.SSLCert ≠ conf6.SSLKey ∧
    extFix.tlsGenKey conf6.SSLKeyCurve = some ([7, 7], { keyId := 1 }) ∧
    genTLSCACert extFix conf6 5 fsEmpty ktsFix = .ok (fs6, kts6, cert6) ∧
    ((initTLSCerts extFix conf6 5 fsEmpty ktsFix).fs = fs6 ∧
     (initTLSCerts extFix conf6 5 fsEmpty ktsFix).kts = kts6 ∧
     fs6.read conf6.SSLKey =
       some { content := [7, 7], mode := 0o600 } ∧
     fs6.read conf6.SSLCert =
       some { content := extFix.pemEnc cert6.der, mode := 0o644 } ∧
     fs6.read conf6.SSLCA =
       some { content := extFix.pemEnc cert6.der, mode := 0o644 } ∧
     cert6.subjectCN = "curse" ∧ cert6.issuerCN = "curse" ∧
     cert6.isCA = true ∧ cert6.san = conf6.SSLCertHostname ∧
     cert6.serialNumber = 1 ∧ cert6.notBefore = 5 ∧
     cert6.notAfter = 5 + conf6.SSLCADuration * 24 * hour ∧
     kts6.serial = some 1) :=
  ⟨rfl, rfl, by decide, by decide, rfl, rfl,
   (c6_bootstrap extFix conf6 5 fsEmpty ktsFix).2 [7, 7] { keyId := 1 }
     fs6 kts6 cert6 rfl rfl (by decide) (by decide) rfl rfl⟩

end Curse
